import Mathlib

/-!
Shallow embedding of src/mpc_filtered_reader.py (class MPCFilteredReader).

Lines are modelled as List Char, Python float values as ℚ, and Python
exceptions as Except results.  The astropy calls are modelled by executable
definitions: Time("y-m-d") is a Gregorian calendar validity check followed
by conversion to a Modified Julian Date; SkyCoord(ra, dec, unit=(hourangle,
deg)) is a whitespace-separated sexagesimal parse where right ascension is
wrapped into [0, 24) hours and declination outside [-90, 90] degrees is a
parse failure (astropy raises ValueError there, which the source catches).
Python float(str) is modelled on its plain decimal and exponent forms
(the inf/nan/underscore forms are never relevant to MPC fields).
-/

namespace MPC

/- The arithmetic of ℚ in Batteries is marked irreducible, which only
affects elaboration; making it semireducible again lets decide evaluate
the executable definitions below on concrete lines. -/
attribute [local semireducible] Rat.add Rat.mul Rat.inv Rat.sub

/-- Characters treated as whitespace by Python str.strip and str.split. -/
def isPyWs (c : Char) : Bool :=
  c == ' ' || c == '\t' || c == '\n' || c == '\r' || c == '\x0b' || c == '\x0c'

/-- Python str.strip() with no argument: drop whitespace at both ends. -/
def pyStrip (s : List Char) : List Char :=
  ((s.dropWhile isPyWs).reverse.dropWhile isPyWs).reverse

/-- Python slicing line[a:b] for 0 ≤ a ≤ b: clamps at the end of the list
and never fails. -/
def pySlice (l : List Char) (a b : Nat) : List Char :=
  (l.drop a).take (b - a)

/-- Split a leading run of ASCII digits from the rest. -/
def takeDigits : List Char → List Char × List Char
  | [] => ([], [])
  | c :: r =>
    if c.isDigit then
      let p := takeDigits r
      (c :: p.1, p.2)
    else ([], c :: r)

/-- Numeric value of a digit string (most significant digit first). -/
def natOfDigits (ds : List Char) : Nat :=
  ds.foldl (fun a c => a * 10 + (c.toNat - 48)) 0

/-- Strip an optional leading sign, returning it as ±1. -/
def parseSign : List Char → Int × List Char
  | '+' :: r => (1, r)
  | '-' :: r => (-1, r)
  | s => (1, s)

/-- Parse an unsigned decimal: digits [. digits], or . digits.  Returns the
value and the unconsumed rest. -/
def parseUnsignedDecimal (s : List Char) : Option (ℚ × List Char) :=
  let p := takeDigits s
  match p.2 with
  | '.' :: r2 =>
    let q := takeDigits r2
    if p.1 = [] ∧ q.1 = [] then none
    else some ((natOfDigits p.1 : ℚ) + (natOfDigits q.1 : ℚ) / ((10 : ℚ) ^ q.1.length), q.2)
  | _ => if p.1 = [] then none else some ((natOfDigits p.1 : ℚ), p.2)

/-- Parse an optional exponent part: e or E, optional sign, digits. -/
def parseExpPart (s : List Char) : Option (Int × List Char) :=
  match s with
  | c :: r =>
    if c == 'e' || c == 'E' then
      let sg := parseSign r
      let ds := takeDigits sg.2
      if ds.1 = [] then none else some (sg.1 * (natOfDigits ds.1 : Int), ds.2)
    else some (0, c :: r)
  | [] => some (0, [])

/-- Scale a value by a power of ten. -/
def applyExp (v : ℚ) (e : Int) : ℚ :=
  if 0 ≤ e then v * (10 : ℚ) ^ e.toNat else v / (10 : ℚ) ^ (-e).toNat

/-- Parse a full signed decimal with optional exponent; the whole input must
be consumed. -/
def parseDecAll (s : List Char) : Option ℚ :=
  let sg := parseSign s
  match parseUnsignedDecimal sg.2 with
  | none => none
  | some vr =>
    match parseExpPart vr.2 with
    | none => none
    | some er =>
      if er.2 = [] then some ((sg.1 : ℚ) * applyExp vr.1 er.1) else none

/-- Model of Python float(str): surrounding whitespace is allowed, then a
signed decimal with optional exponent.  Returns none where float() raises
ValueError. -/
def pyFloat (s : List Char) : Option ℚ :=
  parseDecAll (pyStrip s)

/-- Split on whitespace runs, dropping empty tokens (Python str.split()). -/
def tokenizeAux : List Char → List Char → List (List Char)
  | [], acc => if acc = [] then [] else [acc.reverse]
  | c :: r, acc =>
    if isPyWs c then
      if acc = [] then tokenizeAux r [] else acc.reverse :: tokenizeAux r []
    else tokenizeAux r (c :: acc)

def tokenize (s : List Char) : List (List Char) := tokenizeAux s []

/-- An unsigned decimal token, fully consumed. -/
def parseUnsignedTok (s : List Char) : Option ℚ :=
  match parseUnsignedDecimal s with
  | some vr => if vr.2 = [] then some vr.1 else none
  | none => none

/-- Model of astropy Angle parsing of a sexagesimal string: one to three
whitespace-separated components, a sign allowed on the first; the value is
sign * (h + m/60 + s/3600). -/
def parseAngle (s : List Char) : Option ℚ :=
  match tokenize s with
  | [a] =>
    let sg := parseSign a
    match parseUnsignedTok sg.2 with
    | some v => some ((sg.1 : ℚ) * v)
    | none => none
  | [a, b] =>
    let sg := parseSign a
    match parseUnsignedTok sg.2, parseUnsignedTok b with
    | some v, some m => some ((sg.1 : ℚ) * (v + m / 60))
    | _, _ => none
  | [a, b, c] =>
    let sg := parseSign a
    match parseUnsignedTok sg.2, parseUnsignedTok b, parseUnsignedTok c with
    | some v, some m, some sec => some ((sg.1 : ℚ) * (v + m / 60 + sec / 3600))
    | _, _, _ => none
  | _ => none

/-- Floor of a rational as an integer (denominators are positive). -/
def ratFloor (q : ℚ) : Int := q.num.fdiv q.den

/-- Wrap an hour angle into [0, 24): astropy Longitude wraps right ascension
at 360 degrees, so ra.hour lies in [0, 24). -/
def wrap24 (q : ℚ) : ℚ := q - 24 * (ratFloor (q / 24) : ℚ)

/-- Model of SkyCoord(raStr, decStr, unit=(u.hourangle, u.deg)) followed by
reading (coord.ra.hour, coord.dec.degree).  A declination outside [-90, 90]
makes the constructor raise ValueError, which the caller catches, so it is a
parse failure here. -/
def parseCoordStrs (raS decS : List Char) : Option (ℚ × ℚ) :=
  match parseAngle raS, parseAngle decS with
  | some r, some d =>
    if d < -90 ∨ 90 < d then none else some (wrap24 r, d)
  | _, _ => none

/-- The coordinate fields of a line: SkyCoord(line[32:44], line[44:56], ...). -/
def parseCoord (line : List Char) : Option (ℚ × ℚ) :=
  parseCoordStrs (pySlice line 32 44) (pySlice line 44 56)

def isLeapYear (y : Nat) : Bool :=
  (y % 4 == 0 && y % 100 != 0) || y % 400 == 0

def daysInMonth (y m : Nat) : Nat :=
  if m = 2 then (if isLeapYear y then 29 else 28)
  else if m = 4 ∨ m = 6 ∨ m = 9 ∨ m = 11 then 30
  else 31

/-- Days from 1970-01-01 to the given Gregorian date (proleptic). -/
def daysFromCivil (y : Int) (m d : Nat) : Int :=
  let y2 : Int := if m ≤ 2 then y - 1 else y
  let era : Int := (if 0 ≤ y2 then y2 else y2 - 399) / 400
  let yoe : Int := y2 - era * 400
  let mp : Nat := (m + 9) % 12
  let doy : Nat := (153 * mp + 2) / 5 + (d - 1)
  let doe : Int := yoe * 365 + yoe / 4 - yoe / 100 + (doy : Int)
  era * 146097 + doe - 719468

/-- Modified Julian Date of a Gregorian calendar day (MJD of 1970-01-01 is
40587). -/
def civilToMJD (y m d : Nat) : Int := daysFromCivil (y : Int) m d + 40587

/-- Model of Time("ys-ms-ds").mjd + float(fs): the three date pieces must be
all-digit fields of the fixed widths 4, 2, 2 forming a valid calendar date,
and the day-fraction field must parse as a float; otherwise astropy or
float() raises ValueError (none here). -/
def parseTimestampStrs (ys ms ds fs : List Char) : Option ℚ :=
  if ys.length = 4 ∧ ys.all Char.isDigit ∧ ms.length = 2 ∧ ms.all Char.isDigit
      ∧ ds.length = 2 ∧ ds.all Char.isDigit then
    let y := natOfDigits ys
    let m := natOfDigits ms
    let d := natOfDigits ds
    if 1 ≤ m ∧ m ≤ 12 ∧ 1 ≤ d ∧ d ≤ daysInMonth y m then
      match pyFloat fs with
      | some f => some ((civilToMJD y m d : ℚ) + f)
      | none => none
    else none
  else none

/-- The timestamp of a line, in MJD:
Time(line[15:19]-line[20:22]-line[23:25]).mjd + float(line[25:31]). -/
def parseTimestamp (line : List Char) : Option ℚ :=
  parseTimestampStrs (pySlice line 15 19) (pySlice line 20 22)
    (pySlice line 23 25) (pySlice line 25 31)

/-! ### The filter engine (class MPCFilteredReader) -/

/-- The filter state of an MPCFilteredReader instance: the six class
attributes, each defaulting to None.  Strings are List Char. -/
structure Config where
  name : Option (List Char)
  obscode : Option (List Char)
  time_range : Option (ℚ × ℚ)
  ra_range : Option (ℚ × ℚ)
  dec_range : Option (ℚ × ℚ)
  mag_range : Option (ℚ × ℚ)
deriving DecidableEq

/-- A fresh MPCFilteredReader: every filter attribute is None. -/
def initConfig : Config := ⟨none, none, none, none, none, none⟩

/-- The source raises an (undefined) IllegalArgumentError on bad
configuration arguments; at runtime Python turns the undefined name into a
NameError, but either way an exception is raised before any attribute is
assigned, so a failed setter leaves the configuration unchanged.  In this
functional embedding a setter returns the updated Config or an error. -/
inductive ConfigError where
  | illegalArgument
deriving DecidableEq

/-- Exceptions that can escape parse_and_filter_line. -/
inductive ParseErr where
  | malformedTimestamp
  | indexError
  | malformedMagnitude
deriving DecidableEq

/-- set_name: plain assignment, no validation. -/
def set_name (cfg : Config) (n : List Char) : Config := { cfg with name := some n }

/-- set_obscode: plain assignment, no validation. -/
def set_obscode (cfg : Config) (c : List Char) : Config := { cfg with obscode := some c }

/-- set_time_range(start_time, end_time): raises if start_time > end_time,
else stores the pair. -/
def set_time_range (cfg : Config) (start_time end_time : ℚ) : Except ConfigError Config :=
  if start_time > end_time then Except.error ConfigError.illegalArgument
  else Except.ok { cfg with time_range := some (start_time, end_time) }

/-- set_skycoords_range(ra_min, ra_max, dec_min, dec_max): raises if
ra_min > ra_max or (otherwise) if dec_min > dec_max, else stores both
ranges.  (The Python signature has defaults 0/24 and -90/90; arguments are
explicit here.) -/
def set_skycoords_range (cfg : Config) (ra_min ra_max dec_min dec_max : ℚ) :
    Except ConfigError Config :=
  if ra_min > ra_max then Except.error ConfigError.illegalArgument
  else if dec_min > dec_max then Except.error ConfigError.illegalArgument
  else Except.ok { cfg with ra_range := some (ra_min, ra_max),
                            dec_range := some (dec_min, dec_max) }

/-- set_magnitude_range(start, end): raises if start > end, else stores the
pair. -/
def set_magnitude_range (cfg : Config) (s e : ℚ) : Except ConfigError Config :=
  if s > e then Except.error ConfigError.illegalArgument
  else Except.ok { cfg with mag_range := some (s, e) }

/-- Python truthiness of an optional string attribute: the filter is active
only when the attribute is set AND nonempty (an empty string is falsy). -/
def strTruthy (o : Option (List Char)) : Bool :=
  match o with
  | some s => !s.isEmpty
  | none => false

/-- The range test used by every range filter in parse_and_filter_line:
with a range (lo, hi) stored, a value v is rejected when v < lo or v > hi;
with no range stored nothing is rejected.  (A stored pair is always truthy
in Python.) -/
def rangeRejects (r : Option (ℚ × ℚ)) (v : ℚ) : Bool :=
  match r with
  | some p => decide (v < p.1) || decide (p.2 < v)
  | none => false

/-- Step 1 of parse_and_filter_line (source lines 97-100): the time filter.
Input is the parsed timestamp; output is the filtered flag and the time
value, which is set to None when the time filter rejects. -/
def step_time (cfg : Config) (t : ℚ) : Bool × Option ℚ :=
  if rangeRejects cfg.time_range t then (true, none) else (false, some t)

/-- Step 2 (source lines 102-118): coordinates.  Runs only when not yet
filtered; an unparseable coordinate (SkyCoord raising ValueError) leaves
coord = None and sets filtered; a parsed coordinate is kept and the RA and
Dec range filters each may set filtered. -/
def step_coord (cfg : Config) (co : Option (ℚ × ℚ)) (filtered : Bool) :
    Bool × Option (ℚ × ℚ) :=
  if filtered then (filtered, none)
  else
    match co with
    | some c => (rangeRejects cfg.ra_range c.1 || rangeRejects cfg.dec_range c.2, some c)
    | none => (true, none)

/-- Step 3 (source lines 120-123): the name filter.  nm is the stripped
slice line[0:12]; the step runs only when not filtered and the name
attribute is truthy. -/
def step_name (cfg : Config) (nm : List Char) (filtered : Bool) : Bool :=
  match cfg.name with
  | some n =>
    if !filtered && !n.isEmpty then
      (if n ≠ nm then true else filtered)
    else filtered
  | none => filtered

/-- Step 4 (source lines 125-130): the obscode filter.  len is len(line)
and ob is line[77:80]; a line shorter than 80 characters is rejected, else
a mismatch with the configured code is rejected. -/
def step_obscode (cfg : Config) (len : Nat) (ob : List Char) (filtered : Bool) : Bool :=
  match cfg.obscode with
  | some c =>
    if !filtered && !c.isEmpty then
      if len < 80 then true
      else if ob ≠ c then true
      else filtered
    else filtered
  | none => filtered

/-- Step 5 (source lines 132-139): the magnitude filter.  sentinel is
line[67] as an Option (Python raises IndexError when the index is out of
range — modelled as none); magStr is line[65:70].  When the sentinel is not
a decimal point the record is filtered; otherwise float(line[65:70]) is
parsed (ValueError propagates) and the magnitude range is applied. -/
def step_mag (cfg : Config) (sentinel : Option Char) (magStr : List Char) (filtered : Bool) :
    Except ParseErr Bool :=
  if !filtered && cfg.mag_range.isSome then
    match sentinel with
    | none => Except.error ParseErr.indexError
    | some ch =>
      if ch ≠ '.' then Except.ok true
      else
        match pyFloat magStr with
        | none => Except.error ParseErr.malformedMagnitude
        | some m => Except.ok (rangeRejects cfg.mag_range m || filtered)
  else Except.ok filtered

/-- parse_and_filter_line (source lines 75-143): parse the timestamp (a
malformed date raises), then run the five filter steps in order with the
shared filtered flag, finally returning (None, None) when filtered and the
(coord, time) pair otherwise. -/
def parse_and_filter_line (cfg : Config) (line : List Char) :
    Except ParseErr (Option (ℚ × ℚ) × Option ℚ) :=
  match parseTimestamp line with
  | none => Except.error ParseErr.malformedTimestamp
  | some t =>
    match step_mag cfg (line.get? 67) (pySlice line 65 70)
        (step_obscode cfg line.length (pySlice line 77 80)
          (step_name cfg (pyStrip (pySlice line 0 12))
            (step_coord cfg (parseCoord line) (step_time cfg t).1).1)) with
    | Except.error e => Except.error e
    | Except.ok f =>
      if f then Except.ok (none, none)
      else Except.ok ((step_coord cfg (parseCoord line) (step_time cfg t).1).2,
                      (step_time cfg t).2)

/-- The value of the filtered flag after the first four steps of
parse_and_filter_line (everything before the magnitude block), with a
malformed timestamp propagated as the same error. -/
def filteredBeforeMag (cfg : Config) (line : List Char) : Except ParseErr Bool :=
  match parseTimestamp line with
  | none => Except.error ParseErr.malformedTimestamp
  | some t =>
    Except.ok (step_obscode cfg line.length (pySlice line 77 80)
      (step_name cfg (pyStrip (pySlice line 0 12))
        (step_coord cfg (parseCoord line) (step_time cfg t).1).1))

/-- Two lines of equal length that agree everywhere outside the magnitude
columns [65:70) (0-indexed): same prefix up to column 65 and same suffix
from column 70 on. -/
def agreeOutsideMag (l₁ l₂ : List Char) : Prop :=
  l₁.length = l₂.length ∧ l₁.take 65 = l₂.take 65 ∧ l₁.drop 70 = l₂.drop 70

instance (l₁ l₂ : List Char) : Decidable (agreeOutsideMag l₁ l₂) := by
  unfold agreeOutsideMag
  infer_instance

instance {ε α : Type} [DecidableEq ε] [DecidableEq α] : DecidableEq (Except ε α) := fun a b =>
  match a, b with
  | Except.error e, Except.error f => decidable_of_iff (e = f) (by simp)
  | Except.ok x, Except.ok y => decidable_of_iff (x = y) (by simp)
  | Except.error _, Except.ok _ => isFalse (by simp)
  | Except.ok _, Except.error _ => isFalse (by simp)

/-! ### Concrete data used by the validation suite, witnesses and
counterexamples -/

/-- The first line of the test data of the repository (80 characters,
timestamp 1999-06-05.03484 = MJD 1283350871/25000, magnitude 16.6,
obscode 706). -/
def hall2Line : List Char :=
  "     Hall2    C1999 06 05.03484 17 47 47.64 -25 27 24.3          16.6 R      706".toList

/-- The second line of the test data of the repository. -/
def she001Line : List Char :=
  "     She001  2C1995 09 14.79817 23 29 42.54 -02 59 15.9          15.5 V      121".toList

/-- The third line of the test data of the repository (no magnitude). -/
def numbered1Line : List Char :=
  "     0000001  C2002 10 10.28966 01 45 43.18 +08 05 24.4                r     644".toList

/-- The fourth line of the test data of the repository (no magnitude). -/
def numbered7kLine : List Char :=
  "     000007k ZC2009 07 12.38821 20 52 22.26 -16 47 54.1                r     I41".toList

/-- The fifth line of the test data of the repository. -/
def numberedM3Line : List Char :=
  "     00000m3 ZC2009 07 22.38815 20 45 14.31 -17 34 51.4          21.8 Rr     I41".toList

/-- A copy of hall2Line with the magnitude columns [65:70) replaced by
text that has the decimal-point sentinel at index 67 but does not parse as
a float. -/
def hall2MagGarbled : List Char :=
  "     Hall2    C1999 06 05.03484 17 47 47.64 -25 27 24.3          ab.cdR      706".toList

/-- A copy of hall2Line with a non-digit in the year field: the timestamp
is malformed. -/
def hall2BadYear : List Char :=
  "     Hall2    C19x9 06 05.03484 17 47 47.64 -25 27 24.3          16.6 R      706".toList

/-- A copy of hall2Line with a non-digit inside the RA minutes: the
coordinate does not parse but the timestamp does. -/
def hall2BadRA : List Char :=
  "     Hall2    C1999 06 05.03484 17 4x 47.64 -25 27 24.3          16.6 R      706".toList

/-- A copy of hall2Line with index 67 not a decimal point. -/
def hall2MagNoDot : List Char :=
  "     Hall2    C1999 06 05.03484 17 47 47.64 -25 27 24.3          16x6 R      706".toList

/-- The first 60 characters of hall2Line: timestamp and coordinates are
intact, but index 67 does not exist. -/
def hall2Short60 : List Char := hall2Line.take 60

/-- The first 40 characters of hall2Line: the timestamp is intact and the
line is shorter than 80 characters. -/
def hall2Short40 : List Char := hall2Line.take 40

/-- An accepted synthetic line: 2000-01-01.5 (MJD 103089/2), RA 0h,
Dec 0 degrees, 80 characters. -/
def acceptLine : List Char :=
  "AAAAAAAAAAAA  C2000 01 01.50000 00 00 00.00 +00 00 00.0                        ".toList

/-- A time filter nothing modern passes, plus a magnitude filter. -/
def cfgTimeMag : Config :=
  { initConfig with time_range := some (0, 1), mag_range := some (0, 100) }

/-- A configuration with only the magnitude filter [0, 25]. -/
def cfgMag : Config := { initConfig with mag_range := some (0, 25) }

/-- A configuration with only the magnitude filter [14, 18]. -/
def cfgMagNarrow : Config := { initConfig with mag_range := some (14, 18) }

/-- A configuration with only a name filter (matching nothing in the test
data). -/
def cfgName : Config := { initConfig with name := some ['Z'] }

/-- A configuration with only an obscode filter. -/
def cfgObs : Config := { initConfig with obscode := some "706".toList }

/-- The three coordinate-window configurations exercised by the test suite
of the repository. -/
def cfgCoordA : Config :=
  { initConfig with ra_range := some (17, 21), dec_range := some (-51 / 2, -15) }

def cfgCoordB : Config :=
  { initConfig with ra_range := some (0, 5), dec_range := some (0, 10) }

def cfgCoordC : Config :=
  { initConfig with ra_range := some (20, 21), dec_range := some (-18, -16) }

/-- Whether a line passes the filter: the test suite of the repository
checks coord is not None on the result of parse_and_filter_line. -/
def accepted (cfg : Config) (l : List Char) : Bool :=
  match parse_and_filter_line cfg l with
  | Except.ok p => p.1.isSome
  | Except.error _ => false

/-! ### Facts about the individual steps -/

theorem step_name_keep (cfg : Config) (nm : List Char) : step_name cfg nm true = true := by
  unfold step_name
  cases cfg.name <;> simp

theorem step_obscode_keep (cfg : Config) (len : Nat) (ob : List Char) :
    step_obscode cfg len ob true = true := by
  unfold step_obscode
  cases cfg.obscode <;> simp

theorem step_mag_keep (cfg : Config) (s : Option Char) (ms : List Char) :
    step_mag cfg s ms true = Except.ok true := by
  unfold step_mag
  simp

theorem step_obscode_short (cfg : Config) (len : Nat) (ob : List Char) (f : Bool)
    (hc : strTruthy cfg.obscode = true) (hl : len < 80) :
    step_obscode cfg len ob f = true := by
  unfold step_obscode
  unfold strTruthy at hc
  cases ho : cfg.obscode with
  | none => rw [ho] at hc; exact absurd hc (by simp)
  | some c =>
    rw [ho] at hc
    simp at hc
    cases f <;> simp [hc, hl]

theorem step_mag_ok_false (cfg : Config) (s : Option Char) (ms : List Char) (f : Bool)
    (h : step_mag cfg s ms f = Except.ok false) : f = false := by
  unfold step_mag at h
  cases f with
  | false => rfl
  | true => simp at h

theorem step_obscode_false (cfg : Config) (len : Nat) (ob : List Char) (f : Bool)
    (h : step_obscode cfg len ob f = false) : f = false := by
  cases f with
  | false => rfl
  | true => rw [step_obscode_keep] at h; exact h

theorem step_name_false (cfg : Config) (nm : List Char) (f : Bool)
    (h : step_name cfg nm f = false) : f = false := by
  cases f with
  | false => rfl
  | true => rw [step_name_keep] at h; exact h

theorem step_coord_fst_false (cfg : Config) (co : Option (ℚ × ℚ)) (f : Bool)
    (h : (step_coord cfg co f).1 = false) :
    f = false ∧ (step_coord cfg co f).2.isSome = true := by
  unfold step_coord at *
  cases f with
  | true => simp at h
  | false =>
    cases co with
    | none => simp at h
    | some c => simp

theorem step_time_fst_false (cfg : Config) (t : ℚ)
    (h : (step_time cfg t).1 = false) : (step_time cfg t).2 = some t := by
  unfold step_time at *
  by_cases hr : rangeRejects cfg.time_range t <;> simp [hr] at h ⊢

/-! ### Equation lemmas splitting parse_and_filter_line at the magnitude
block -/

theorem parse_line_eq (cfg : Config) (line : List Char) (t : ℚ)
    (hp : parseTimestamp line = some t) :
    parse_and_filter_line cfg line =
      match step_mag cfg (line.get? 67) (pySlice line 65 70)
          (step_obscode cfg line.length (pySlice line 77 80)
            (step_name cfg (pyStrip (pySlice line 0 12))
              (step_coord cfg (parseCoord line) (step_time cfg t).1).1)) with
      | Except.error e => Except.error e
      | Except.ok f =>
        if f then Except.ok (none, none)
        else Except.ok ((step_coord cfg (parseCoord line) (step_time cfg t).1).2,
                        (step_time cfg t).2) := by
  unfold parse_and_filter_line
  rw [hp]

theorem parse_line_timestamp_err (cfg : Config) (line : List Char)
    (hp : parseTimestamp line = none) :
    parse_and_filter_line cfg line = Except.error ParseErr.malformedTimestamp := by
  unfold parse_and_filter_line
  rw [hp]

theorem before_eq (cfg : Config) (line : List Char) (t : ℚ)
    (hp : parseTimestamp line = some t) :
    filteredBeforeMag cfg line =
      Except.ok (step_obscode cfg line.length (pySlice line 77 80)
        (step_name cfg (pyStrip (pySlice line 0 12))
          (step_coord cfg (parseCoord line) (step_time cfg t).1).1)) := by
  unfold filteredBeforeMag
  rw [hp]

theorem before_timestamp_err (cfg : Config) (line : List Char)
    (hp : parseTimestamp line = none) :
    filteredBeforeMag cfg line = Except.error ParseErr.malformedTimestamp := by
  unfold filteredBeforeMag
  rw [hp]

/-- Once the record is filtered before the magnitude block, the result is
the plain rejection (None, None): the magnitude step is skipped. -/
theorem before_true_reject (cfg : Config) (line : List Char)
    (h : filteredBeforeMag cfg line = Except.ok true) :
    parse_and_filter_line cfg line = Except.ok (none, none) := by
  cases hp : parseTimestamp line with
  | none => rw [before_timestamp_err cfg line hp] at h; exact absurd h (by simp)
  | some t =>
    rw [before_eq cfg line t hp] at h
    rw [parse_line_eq cfg line t hp, Except.ok.inj h, step_mag_keep]
    rfl

theorem before_false_mag_err (cfg : Config) (line : List Char) (e : ParseErr)
    (h : filteredBeforeMag cfg line = Except.ok false)
    (hm : step_mag cfg (line.get? 67) (pySlice line 65 70) false = Except.error e) :
    parse_and_filter_line cfg line = Except.error e := by
  cases hp : parseTimestamp line with
  | none => rw [before_timestamp_err cfg line hp] at h; exact absurd h (by simp)
  | some t =>
    rw [before_eq cfg line t hp] at h
    rw [parse_line_eq cfg line t hp, Except.ok.inj h, hm]

theorem before_false_mag_reject (cfg : Config) (line : List Char)
    (h : filteredBeforeMag cfg line = Except.ok false)
    (hm : step_mag cfg (line.get? 67) (pySlice line 65 70) false = Except.ok true) :
    parse_and_filter_line cfg line = Except.ok (none, none) := by
  cases hp : parseTimestamp line with
  | none => rw [before_timestamp_err cfg line hp] at h; exact absurd h (by simp)
  | some t =>
    rw [before_eq cfg line t hp] at h
    rw [parse_line_eq cfg line t hp, Except.ok.inj h, hm]
    rfl

/-! ### Slice congruence: which columns each step reads -/

theorem pySlice_get? (l : List Char) (a b i : Nat) :
    (pySlice l a b).get? i = if i < b - a then l.get? (a + i) else none := by
  unfold pySlice
  by_cases hi : i < b - a
  · rw [if_pos hi, List.get?_take hi, List.get?_drop]
  · rw [if_neg hi]
    apply List.get?_eq_none.mpr
    calc ((l.drop a).take (b - a)).length = min (b - a) (l.drop a).length := List.length_take _ _
      _ ≤ b - a := Nat.min_le_left _ _
      _ ≤ i := Nat.le_of_not_lt hi

theorem pySlice_congr_take {l₁ l₂ : List Char} (n : Nat) (h : l₁.take n = l₂.take n)
    (a b : Nat) (hb : b ≤ n) : pySlice l₁ a b = pySlice l₂ a b := by
  apply List.ext_get?
  intro i
  rw [pySlice_get?, pySlice_get?]
  by_cases hi : i < b - a
  · rw [if_pos hi, if_pos hi]
    have hab : a + i < n := by omega
    rw [← List.get?_take hab, h, List.get?_take hab]
  · rw [if_neg hi, if_neg hi]

theorem pySlice_congr_drop {l₁ l₂ : List Char} (k : Nat) (h : l₁.drop k = l₂.drop k)
    (a b : Nat) (ha : k ≤ a) : pySlice l₁ a b = pySlice l₂ a b := by
  unfold pySlice
  have e1 : (l₁.drop k).drop (a - k) = l₁.drop a := by
    rw [List.drop_drop]
    congr 1
    omega
  have e2 : (l₂.drop k).drop (a - k) = l₂.drop a := by
    rw [List.drop_drop]
    congr 1
    omega
  rw [← e1, ← e2, h]

/-- The timestamp is read entirely from columns before 65. -/
theorem parseTimestamp_congr {l₁ l₂ : List Char} (h : l₁.take 65 = l₂.take 65) :
    parseTimestamp l₁ = parseTimestamp l₂ := by
  unfold parseTimestamp
  rw [pySlice_congr_take 65 h 15 19 (by norm_num), pySlice_congr_take 65 h 20 22 (by norm_num),
      pySlice_congr_take 65 h 23 25 (by norm_num), pySlice_congr_take 65 h 25 31 (by norm_num)]

/-- The coordinates are read entirely from columns before 65. -/
theorem parseCoord_congr {l₁ l₂ : List Char} (h : l₁.take 65 = l₂.take 65) :
    parseCoord l₁ = parseCoord l₂ := by
  unfold parseCoord
  rw [pySlice_congr_take 65 h 32 44 (by norm_num), pySlice_congr_take 65 h 44 56 (by norm_num)]

/-- The first four steps read nothing from the magnitude columns [65:70):
lines agreeing outside those columns are filtered identically before the
magnitude block. -/
theorem filteredBeforeMag_congr (cfg : Config) {l₁ l₂ : List Char}
    (hag : agreeOutsideMag l₁ l₂) :
    filteredBeforeMag cfg l₁ = filteredBeforeMag cfg l₂ := by
  obtain ⟨hlen, htake, hdrop⟩ := hag
  unfold filteredBeforeMag
  simp only [parseTimestamp_congr htake, parseCoord_congr htake,
    pySlice_congr_take 65 htake 0 12 (by norm_num),
    pySlice_congr_drop 70 hdrop 77 80 (by norm_num), hlen]

/-! ### Validation of the embedding against the test suite of the
repository: the enabled assertions of test_mpc_filtered_reader.py
(test_filter_on_coord and test_filter_on_magnitude) reproduce exactly,
and the decoded sample values check out. -/

theorem hall2_line_length : hall2Line.length = 80 := by decide

theorem hall2_timestamp_value :
    parseTimestamp hall2Line = some ((1283350871 : ℚ) / 25000) := by decide

theorem hall2_coord_value :
    parseCoord hall2Line =
      some ((17 + (47 : ℚ) / 60 + (4764 : ℚ) / 100 / 3600,
             -(25 + (27 : ℚ) / 60 + (243 : ℚ) / 10 / 3600))) := by decide

theorem suite_coord_window_a :
    (accepted cfgCoordA hall2Line, accepted cfgCoordA she001Line,
     accepted cfgCoordA numbered1Line, accepted cfgCoordA numbered7kLine,
     accepted cfgCoordA numberedM3Line) = (true, false, false, true, true) := by decide

theorem suite_coord_window_b :
    (accepted cfgCoordB hall2Line, accepted cfgCoordB she001Line,
     accepted cfgCoordB numbered1Line, accepted cfgCoordB numbered7kLine,
     accepted cfgCoordB numberedM3Line) = (false, false, true, false, false) := by decide

theorem suite_coord_window_c :
    (accepted cfgCoordC hall2Line, accepted cfgCoordC she001Line,
     accepted cfgCoordC numbered1Line, accepted cfgCoordC numbered7kLine,
     accepted cfgCoordC numberedM3Line) = (false, false, false, true, true) := by decide

theorem suite_mag_window_wide :
    (accepted cfgMag hall2Line, accepted cfgMag she001Line,
     accepted cfgMag numbered1Line, accepted cfgMag numbered7kLine,
     accepted cfgMag numberedM3Line) = (true, true, false, false, true) := by decide

theorem suite_mag_window_narrow :
    (accepted cfgMagNarrow hall2Line, accepted cfgMagNarrow she001Line,
     accepted cfgMagNarrow numbered1Line, accepted cfgMagNarrow numbered7kLine,
     accepted cfgMagNarrow numberedM3Line) = (true, true, false, false, false) := by decide

/-! ### The claims -/

/-- Claim C1: parse_and_filter_line evaluates the filters in the fixed
order time, coordinate presence and range, name, obscode, magnitude, and
short-circuits: once one of the steps before the magnitude block has
filtered the record, the result is the plain rejection (None, None) and no
later predicate is evaluated — in particular the magnitude columns [65:70)
are never read, so the result is identical for any line agreeing outside
those columns (even contents that would raise in the magnitude step). -/
theorem eval_order_short_circuit (cfg : Config) (l₁ l₂ : List Char)
    (hag : agreeOutsideMag l₁ l₂)
    (h : filteredBeforeMag cfg l₁ = Except.ok true) :
    parse_and_filter_line cfg l₂ = Except.ok (none, none) := by
  apply before_true_reject
  rw [← filteredBeforeMag_congr cfg hag]
  exact h

theorem eval_order_short_circuit_witness :
    agreeOutsideMag hall2Line hall2MagGarbled ∧
    filteredBeforeMag cfgTimeMag hall2Line = Except.ok true ∧
    parse_and_filter_line cfgTimeMag hall2MagGarbled = Except.ok (none, none) :=
  ⟨by decide, by decide,
   eval_order_short_circuit cfgTimeMag hall2Line hall2MagGarbled (by decide) (by decide)⟩

/-- Claim C3: a line whose timestamp columns do not form a well-formed
calendar date makes parse_and_filter_line raise the malformed-timestamp
parse error under every filter configuration (including the empty one); it
is never reported as the filtered (None, None) result. -/
theorem malformed_timestamp_raises (cfg : Config) (line : List Char)
    (hp : parseTimestamp line = none) :
    parse_and_filter_line cfg line = Except.error ParseErr.malformedTimestamp ∧
    ∀ p : Option (ℚ × ℚ) × Option ℚ, parse_and_filter_line cfg line ≠ Except.ok p := by
  refine ⟨parse_line_timestamp_err cfg line hp, ?_⟩
  intro p
  rw [parse_line_timestamp_err cfg line hp]
  simp

theorem malformed_timestamp_raises_witness :
    parse_and_filter_line initConfig hall2BadYear = Except.error ParseErr.malformedTimestamp :=
  (malformed_timestamp_raises initConfig hall2BadYear (by decide)).1

/-- Claim C4: when the timestamp parses and passes any configured time
filter but the RA/Dec substrings (columns [32:56)) fail to parse, the
result is the filtered (None, None) whatever filters are configured: the
ValueError from the coordinate parse is caught and never propagated. -/
theorem coord_unparseable_filtered (cfg : Config) (line : List Char) (t : ℚ)
    (hp : parseTimestamp line = some t)
    (ht : rangeRejects cfg.time_range t = false)
    (hc : parseCoord line = none) :
    parse_and_filter_line cfg line = Except.ok (none, none) := by
  apply before_true_reject
  rw [before_eq cfg line t hp]
  simp [step_time, ht, hc, step_coord, step_name_keep, step_obscode_keep]

theorem coord_unparseable_filtered_witness :
    parse_and_filter_line cfgName hall2BadRA = Except.ok (none, none) :=
  coord_unparseable_filtered cfgName hall2BadRA ((1283350871 : ℚ) / 25000)
    (by decide) (by decide) (by decide)

/-- Claim C5: each range setter validates min ≤ max synchronously, during
the configuration call: a minimum exceeding the corresponding maximum
yields the configuration error before any line is processed, and since the
raise precedes the attribute assignment no updated configuration is
produced — the stored configuration is unchanged. -/
theorem config_validation (cfg : Config) (a b rlo rhi dlo dhi mlo mhi : ℚ) :
    (a > b → set_time_range cfg a b = Except.error ConfigError.illegalArgument) ∧
    ((rlo > rhi ∨ dlo > dhi) →
      set_skycoords_range cfg rlo rhi dlo dhi = Except.error ConfigError.illegalArgument) ∧
    (mlo > mhi → set_magnitude_range cfg mlo mhi = Except.error ConfigError.illegalArgument) := by
  refine ⟨?_, ?_, ?_⟩
  · intro h
    simp [set_time_range, h]
  · intro h
    rcases h with h | h
    · simp [set_skycoords_range, h]
    · by_cases h2 : rlo > rhi
      · simp [set_skycoords_range, h2]
      · simp [set_skycoords_range, h2, h]
  · intro h
    simp [set_magnitude_range, h]

theorem config_validation_witness :
    set_time_range initConfig 2 1 = Except.error ConfigError.illegalArgument ∧
    set_skycoords_range initConfig 3 1 0 0 = Except.error ConfigError.illegalArgument ∧
    set_magnitude_range initConfig 5 4 = Except.error ConfigError.illegalArgument :=
  ⟨(config_validation initConfig 2 1 3 1 0 0 5 4).1 (by norm_num),
   (config_validation initConfig 2 1 3 1 0 0 5 4).2.1 (Or.inl (by norm_num)),
   (config_validation initConfig 2 1 3 1 0 0 5 4).2.2 (by norm_num)⟩

/-- Claim C6: the bounds of every configured range are inclusive: a value
exactly equal to the stored minimum or maximum is not rejected by
rangeRejects, the predicate all four range filters (time in step_time,
RA and Dec in step_coord, magnitude in step_mag) apply; the hypothesis
lo ≤ hi is the invariant the setters enforce. -/
theorem range_bounds_inclusive (lo hi v : ℚ) (hle : lo ≤ hi) (hv : v = lo ∨ v = hi) :
    rangeRejects (some (lo, hi)) v = false := by
  unfold rangeRejects
  rcases hv with h | h <;> rw [h] <;>
    simp only [Bool.or_eq_false_iff, decide_eq_false_iff_not]
  · exact ⟨lt_irrefl lo, not_lt_of_le hle⟩
  · exact ⟨not_lt_of_le hle, lt_irrefl hi⟩

theorem range_bounds_inclusive_witness :
    rangeRejects (some ((3 : ℚ), 7)) 3 = false ∧ rangeRejects (some ((3 : ℚ), 7)) 7 = false :=
  ⟨range_bounds_inclusive 3 7 3 (by norm_num) (Or.inl rfl),
   range_bounds_inclusive 3 7 7 (by norm_num) (Or.inr rfl)⟩

/-- Claim C7: a line that reaches the magnitude filter unfiltered, with a
magnitude range configured and a decimal point at index 67, but whose slice
[65:70) does not parse as a float, makes parse_and_filter_line raise the
malformed-magnitude error — a propagated parse error, not a filtered
result or an absent magnitude. -/
theorem malformed_magnitude_raises (cfg : Config) (line : List Char)
    (hb : filteredBeforeMag cfg line = Except.ok false)
    (hm : cfg.mag_range.isSome = true)
    (hs : line.get? 67 = some '.')
    (hf : pyFloat (pySlice line 65 70) = none) :
    parse_and_filter_line cfg line = Except.error ParseErr.malformedMagnitude := by
  apply before_false_mag_err cfg line _ hb
  unfold step_mag
  rw [hs]
  simp [hm, hf]

theorem malformed_magnitude_raises_witness :
    parse_and_filter_line cfgMag hall2MagGarbled = Except.error ParseErr.malformedMagnitude :=
  malformed_magnitude_raises cfgMag hall2MagGarbled (by decide) (by decide) (by decide)
    (by decide)

/-- Claim C2 (counterexample): the claim says a line of length at most 68
reaching an active magnitude filter is rejected as a normal filtering
outcome and never hits an indexing error; but on this 60-character line —
valid timestamp and coordinates, only a magnitude filter configured — the
source evaluates line[67], which raises IndexError instead of returning
the filtered result. -/
theorem mag_short_line_counterexample :
    hall2Short60.length ≤ 68 ∧ cfgMag.mag_range.isSome = true ∧
    parse_and_filter_line cfgMag hall2Short60 = Except.error ParseErr.indexError ∧
    parse_and_filter_line cfgMag hall2Short60 ≠ Except.ok (none, none) := by
  refine ⟨by decide, by decide, by decide, by decide⟩

/-- Claim C2 (amended): for a line that reaches the magnitude filter with
a magnitude range configured: when index 67 exists and its character is
not a decimal point, the magnitude is treated as absent and the record is
rejected as a normal filtering outcome (the slice [65:70) is never
parsed); but when the line is shorter than 68 characters the sentinel
check line[67] itself raises IndexError rather than rejecting. -/
theorem mag_sentinel_amended (cfg : Config) (line : List Char)
    (hb : filteredBeforeMag cfg line = Except.ok false)
    (hm : cfg.mag_range.isSome = true) :
    (∀ c : Char, line.get? 67 = some c → c ≠ '.' →
        parse_and_filter_line cfg line = Except.ok (none, none)) ∧
    (line.get? 67 = none →
        parse_and_filter_line cfg line = Except.error ParseErr.indexError) := by
  constructor
  · intro c hs hne
    apply before_false_mag_reject cfg line hb
    unfold step_mag
    rw [hs]
    simp [hm, hne]
  · intro hs
    apply before_false_mag_err cfg line _ hb
    unfold step_mag
    rw [hs]
    simp [hm]

theorem mag_sentinel_amended_witness :
    parse_and_filter_line cfgMag hall2MagNoDot = Except.ok (none, none) ∧
    parse_and_filter_line cfgMag hall2Short60 = Except.error ParseErr.indexError :=
  ⟨(mag_sentinel_amended cfgMag hall2MagNoDot (by decide) (by decide)).1 'x'
      (by decide) (by decide),
   (mag_sentinel_amended cfgMag hall2Short60 (by decide) (by decide)).2 (by decide)⟩

/-- Claim C8 (counterexample): the claim says that with an obscode filter
configured every line shorter than 80 characters is rejected (returns the
filtered result); but the empty line raises the malformed-timestamp parse
error instead of returning the filtered (None, None). -/
theorem short_line_obscode_counterexample :
    ([] : List Char).length < 80 ∧ strTruthy cfgObs.obscode = true ∧
    parse_and_filter_line cfgObs [] = Except.error ParseErr.malformedTimestamp ∧
    parse_and_filter_line cfgObs [] ≠ Except.ok (none, none) := by
  refine ⟨by decide, by decide, by decide, by decide⟩

/-- Claim C8 (amended): every line shorter than 80 characters whose
timestamp parses is rejected with the filtered result (None, None) when an
active (nonempty) obscode filter is configured — regardless of the other
filters and of whether the coordinates parse; a line whose timestamp does
not parse raises instead. -/
theorem short_line_obscode_amended (cfg : Config) (line : List Char) (t : ℚ)
    (hp : parseTimestamp line = some t)
    (ho : strTruthy cfg.obscode = true)
    (hl : line.length < 80) :
    parse_and_filter_line cfg line = Except.ok (none, none) := by
  apply before_true_reject
  rw [before_eq cfg line t hp]
  rw [step_obscode_short cfg line.length (pySlice line 77 80) _ ho hl]

theorem short_line_obscode_amended_witness :
    parse_and_filter_line cfgObs hall2Short40 = Except.ok (none, none) :=
  short_line_obscode_amended cfgObs hall2Short40 ((1283350871 : ℚ) / 25000)
    (by decide) (by decide) (by decide)

/-- Claim C9: setting the name filter or the obscode filter to the empty
string leaves that step inactive: the empty string is falsy in Python, so
for every line and every incoming filtered flag the step returns the flag
unchanged — it never rejects, rather than requiring the extracted field to
equal the empty string. -/
theorem empty_string_filter_inactive (cfg : Config) (nm ob : List Char) (len : Nat)
    (filtered : Bool) :
    step_name (set_name cfg []) nm filtered = filtered ∧
    step_obscode (set_obscode cfg []) len ob filtered = filtered := by
  constructor
  · simp [set_name, step_name]
  · simp [set_obscode, step_obscode]

/-- Claim C10: whenever parse_and_filter_line returns normally, the
returned pair is either (None, None) or has both components present: the
coordinate is None exactly when the time is None. -/
theorem result_pair_consistent (cfg : Config) (line : List Char)
    (co : Option (ℚ × ℚ)) (t : Option ℚ)
    (h : parse_and_filter_line cfg line = Except.ok (co, t)) :
    (co = none ↔ t = none) := by
  cases hp : parseTimestamp line with
  | none =>
    rw [parse_line_timestamp_err cfg line hp] at h
    exact absurd h (by simp)
  | some t0 =>
    rw [parse_line_eq cfg line t0 hp] at h
    cases hm : step_mag cfg (line.get? 67) (pySlice line 65 70)
        (step_obscode cfg line.length (pySlice line 77 80)
          (step_name cfg (pyStrip (pySlice line 0 12))
            (step_coord cfg (parseCoord line) (step_time cfg t0).1).1)) with
    | error e =>
      rw [hm] at h
      exact absurd h (by simp)
    | ok f =>
      rw [hm] at h
      cases f with
      | true =>
        simp only [if_pos] at h
        obtain ⟨hco, ht⟩ := Prod.mk.inj (Except.ok.inj h)
        rw [← hco, ← ht]
        exact iff_of_true rfl rfl
      | false =>
        simp only [Bool.false_eq_true, if_false] at h
        obtain ⟨hco, ht⟩ := Prod.mk.inj (Except.ok.inj h)
        have h4 := step_mag_ok_false _ _ _ _ hm
        have h3 := step_obscode_false _ _ _ _ h4
        have h2 := step_name_false _ _ _ h3
        obtain ⟨h1, hsome⟩ := step_coord_fst_false cfg (parseCoord line) (step_time cfg t0).1 h2
        have htv := step_time_fst_false cfg t0 h1
        rw [← hco, ← ht, htv]
        constructor
        · intro hx
          rw [hx] at hsome
          simp at hsome
        · intro hx
          exact absurd hx (by simp)

theorem result_pair_consistent_witness :
    ((some ((0 : ℚ), (0 : ℚ)) = none) ↔ (some ((103089 : ℚ) / 2) = none)) :=
  result_pair_consistent initConfig acceptLine (some (0, 0)) (some ((103089 : ℚ) / 2))
    (by decide)

end MPC
